import Mathlib

/-!
Verification of the table-driven clinical rule engine
(`rule_processor.py` and `simple_rule_engine.py`).

The embedding follows the Python source:
* a rule file is a `RuleDefinition` (ordered `input_parameters`,
  lookup table `rules`); the file system is a map `String → Option RuleDefinition`
  (`none` models a missing file, mirroring `os.path.isfile` returning false);
* pandas dataframes of abstracted observations become lists of `ObsRow`;
  timestamps are naturals;
* Python `raise` becomes `Except String`;
* Python result dictionaries become association lists `String × PyVal`.
-/

/-- A parsed rule file: `{"input_parameters": [...], "rules": {...}}`. -/
structure RuleDefinition where
  input_parameters : List String
  rules : List (String × String)
  deriving Repr, DecidableEq

/-- The file system seen by `load_rule`: a path either resolves to a parsed
rule definition or does not exist. -/
abbrev FileSystem : Type := String → Option RuleDefinition

/-- Python `dict.get(k, default)` on an association list. -/
def dictGet (d : List (String × String)) (k : String) (default : String) : String :=
  (d.lookup k).getD default

/-- `RuleProcessor.load_rule`: return the parsed file if the path exists,
otherwise raise `FileNotFoundError(f"Rule file not found: {rule_path}")`. -/
def load_rule (fs : FileSystem) (rule_path : String) : Except String RuleDefinition :=
  match fs rule_path with
  | some rd => .ok rd
  | none => .error ("Rule file not found: " ++ rule_path)

/-- The composite lookup key built by `RuleProcessor.apply_rule`:
`",".join(str(input_values.get(param, "")) for param in rule_data["input_parameters"])`. -/
def buildKey (params : List String) (input_values : List (String × String)) : String :=
  String.intercalate "," (params.map (fun param => dictGet input_values param ""))

/-- `RuleProcessor.apply_rule`: load the rule file, build the composite key in
declared parameter order, and return `rule_data["rules"].get(key, None)`. -/
def apply_rule (fs : FileSystem) (rule_path : String)
    (input_values : List (String × String)) : Except String (Option String) :=
  match load_rule fs rule_path with
  | .error e => .error e
  | .ok rule_data =>
    .ok (rule_data.rules.lookup (buildKey rule_data.input_parameters input_values))

/-- One row of the abstracted-measurements dataframe. -/
structure ObsRow where
  conceptName : String
  startDateTime : Nat
  endDateTime : Nat
  value : String
  deriving Repr, DecidableEq

/-- The abstracted dataframe: rows in index order. -/
abbrev DataFrame : Type := List ObsRow

/-- The row filter of `get_latest_abstracted_value`: exact concept-name match
and `StartDateTime <= snapshot_time <= EndDateTime`, both bounds inclusive. -/
def matchesConcept (concept_name : String) (snapshot_time : Nat) (r : ObsRow) : Bool :=
  r.conceptName == concept_name
    && r.startDateTime ≤ snapshot_time && snapshot_time ≤ r.endDateTime

/-- `concept_data['StartDateTime'].idxmax()` followed by `.loc`: the first row
(in index order) attaining the maximum `StartDateTime`, as pandas `idxmax`
returns the first occurrence of the maximum. -/
def idxmaxRow (r : ObsRow) (rs : List ObsRow) : ObsRow :=
  rs.foldl (fun best x => if best.startDateTime < x.startDateTime then x else best) r

/-- `SimpleRuleEngine.get_latest_abstracted_value`: filter rows for the concept
whose validity interval contains the snapshot instant, and return the `Value`
of the one with maximal `StartDateTime`; `None` if nothing remains. -/
def get_latest_abstracted_value (df : DataFrame) (concept_name : String)
    (snapshot_time : Nat) : Option String :=
  if df.isEmpty then none
  else
    match df.filter (matchesConcept concept_name snapshot_time) with
    | [] => none
    | r :: rs => some (idxmaxRow r rs).value

/-- Python truthiness test `not x` on an optional string: `None` and the empty
string are falsy. -/
def falsyStr : Option String → Bool
  | none => true
  | some s => s == ""

/-- `SimpleRuleEngine.get_hematological_state`: return `None` without touching
the rule file when either input is falsy, otherwise apply the JSON rule with
the two named inputs. -/
def get_hematological_state (fs : FileSystem) (hematological_rules : String)
    (hemoglobin_state wbc_level : Option String) : Except String (Option String) :=
  if falsyStr hemoglobin_state || falsyStr wbc_level then .ok none
  else apply_rule fs hematological_rules
    [("hemoglobin_state", hemoglobin_state.getD ""),
     ("wbc_level", wbc_level.getD "")]

/-- Values stored in a Python result dictionary. -/
inductive PyVal where
  | none : PyVal
  | str : String → PyVal
  | time : Nat → PyVal
  | states : List (String × Option String) → PyVal
  | df : List ObsRow → PyVal
  deriving Repr

/-- A Python result dictionary, keys in insertion order. -/
abbrev PyDict : Type := List (String × PyVal)

/-- An optional string as it is stored into a result dictionary. -/
def optVal : Option String → PyVal
  | Option.none => PyVal.none
  | some s => PyVal.str s

/-- The abstraction collaborator `Mediator.run`: for a subject id and snapshot
it yields the abstracted dataframe, or raises. -/
abbrev Mediator : Type := String → Nat → Except String DataFrame

/-- Python `str(patient_id).strip()`: drop whitespace from both ends. -/
def pyStrip (s : String) : String :=
  ⟨((s.data.dropWhile Char.isWhitespace).reverse.dropWhile Char.isWhitespace).reverse⟩

/-- `SimpleRuleEngine.analyze_patient_hematological_state`: trim the subject
id, fetch the abstracted dataframe, return the flat no-data record when it is
empty, otherwise extract both individual values, apply the 2:1 AND rule and
package the normal record. -/
def analyze_patient_hematological_state (fs : FileSystem)
    (hematological_rules : String) (mediator : Mediator)
    (patient_id : String) (snapshot : Nat) : Except String PyDict :=
  match mediator (pyStrip patient_id) snapshot with
  | .error e => .error e
  | .ok abstracted_df =>
    if abstracted_df.isEmpty then
      .ok [("patient_id", .str (pyStrip patient_id)),
           ("snapshot_date", .time snapshot),
           ("hemoglobin_state", PyVal.none),
           ("wbc_level", PyVal.none),
           ("hematological_state", PyVal.none),
           ("error", .str "No abstracted data available for this patient")]
    else
      match get_hematological_state fs hematological_rules
          (get_latest_abstracted_value abstracted_df "Hemoglobin_Level" snapshot)
          (get_latest_abstracted_value abstracted_df "WBC_Level" snapshot) with
      | .error e => .error e
      | .ok hematological_state =>
        .ok [("patient_id", .str (pyStrip patient_id)),
             ("snapshot_date", .time snapshot),
             ("individual_states", .states
               [("hemoglobin_state",
                 get_latest_abstracted_value abstracted_df "Hemoglobin_Level" snapshot),
                ("wbc_level",
                 get_latest_abstracted_value abstracted_df "WBC_Level" snapshot)]),
             ("hematological_state", optVal hematological_state),
             ("abstracted_data", .df abstracted_df)]

/-- A roster row `(patient_id, first_name, last_name, sex)` as returned by the
all-patients query. -/
structure RosterRow where
  patient_id : String
  first_name : String
  last_name : String
  sex : String
  deriving Repr, DecidableEq

/-- `SimpleRuleEngine.analyze_all_patients_hematological_state`: walk the
roster in order; a successful single-subject analysis is enhanced with the
roster's display attributes, an exception is caught and converted to an error
record, and the scan continues. -/
def analyze_all_patients_hematological_state (fs : FileSystem)
    (hematological_rules : String) (mediator : Mediator)
    (all_patients : List RosterRow) (snapshot : Nat) : List PyDict :=
  all_patients.map (fun row =>
    match analyze_patient_hematological_state fs hematological_rules mediator
        row.patient_id snapshot with
    | .ok analysis =>
        analysis ++ [("first_name", .str row.first_name),
                     ("last_name", .str row.last_name)]
    | .error e =>
        [("patient_id", .str row.patient_id),
         ("first_name", .str row.first_name),
         ("last_name", .str row.last_name),
         ("error", .str e)])

/-! ### Helper lemmas -/

lemma lookup_eq_none_of_forall_ne (d : List (String × String)) (p : String)
    (h : ∀ kv ∈ d, kv.1 ≠ p) : d.lookup p = none := by
  induction d with
  | nil => rfl
  | cons kv rest ih =>
      have hne : kv.1 ≠ p := h kv (List.mem_cons_self _ _)
      have hbeq : (p == kv.1) = false := beq_eq_false_iff_ne.mpr (fun hc => hne hc.symm)
      simp only [List.lookup, hbeq]
      exact ih (fun x hx => h x (List.mem_cons_of_mem _ hx))

lemma intercalate_pair (sep a b : String) :
    String.intercalate sep [a, b] = a ++ sep ++ b := rfl

lemma matchesConcept_eq_true_iff (concept_name : String) (snapshot_time : Nat) (r : ObsRow) :
    matchesConcept concept_name snapshot_time r = true ↔
      (r.conceptName = concept_name ∧ r.startDateTime ≤ snapshot_time
        ∧ snapshot_time ≤ r.endDateTime) := by
  simp [matchesConcept, and_assoc]

/-! ### C1: key construction and lookup in `apply_rule` -/

/-- C1: with an existing rule file, `apply_rule` builds the composite key by
comma-joining `input_values.get(p, "")` over `input_parameters` in declared
order and returns `rules[key]` when present and `None` otherwise; a parameter
name absent from the input mapping contributes the literal empty-string field
and the lookup proceeds with that key. -/
theorem C1_apply_rule_key_lookup (fs : FileSystem) (rule_path : String)
    (rd : RuleDefinition) (input_values : List (String × String))
    (hfs : fs rule_path = some rd) :
    (∀ v, rd.rules.lookup (String.intercalate ","
        (rd.input_parameters.map (fun p => (input_values.lookup p).getD ""))) = some v →
      apply_rule fs rule_path input_values = .ok (some v)) ∧
    (rd.rules.lookup (String.intercalate ","
        (rd.input_parameters.map (fun p => (input_values.lookup p).getD ""))) = none →
      apply_rule fs rule_path input_values = .ok none) ∧
    (∀ p, (∀ kv ∈ input_values, kv.1 ≠ p) → dictGet input_values p "" = "") := by
  have hkey : buildKey rd.input_parameters input_values =
      String.intercalate ","
        (rd.input_parameters.map (fun p => (input_values.lookup p).getD "")) := rfl
  have happ : apply_rule fs rule_path input_values =
      .ok (rd.rules.lookup (buildKey rd.input_parameters input_values)) := by
    simp [apply_rule, load_rule, hfs, Except.bind]
  refine ⟨?_, ?_, ?_⟩
  · intro v hv
    rw [happ, hkey, hv]
  · intro hv
    rw [happ, hkey, hv]
  · intro p hp
    simp [dictGet, lookup_eq_none_of_forall_ne input_values p hp]

/-- C1 witness: the spec's concrete scenario evaluated through the theorem. -/
theorem C1_witness :
    apply_rule
      (fun p => if p = "hema.json" then
        some ⟨["hemoglobin_state", "wbc_level"],
              [("Severe Anemia,Low", "Critical Hematological State")]⟩ else none)
      "hema.json"
      [("hemoglobin_state", "Severe Anemia"), ("wbc_level", "Low")] =
      .ok (some "Critical Hematological State") :=
  (C1_apply_rule_key_lookup _ "hema.json"
    ⟨["hemoglobin_state", "wbc_level"],
     [("Severe Anemia,Low", "Critical Hematological State")]⟩ _ rfl).1 _ rfl

/-! ### C7: missing rule file raises and propagates -/

/-- C7: when the referenced rule file does not exist, `load_rule` fails with
the file-not-found error, and `apply_rule` propagates exactly that failure to
its caller instead of recovering. -/
theorem C7_resource_not_found (fs : FileSystem) (rule_path : String)
    (input_values : List (String × String)) (hfs : fs rule_path = none) :
    load_rule fs rule_path = .error ("Rule file not found: " ++ rule_path) ∧
    apply_rule fs rule_path input_values =
      .error ("Rule file not found: " ++ rule_path) := by
  constructor
  · simp [load_rule, hfs]
  · simp [apply_rule, load_rule, hfs, Except.bind]

/-- C7 witness: a concrete missing path. -/
theorem C7_witness :
    load_rule (fun _ => none) "missing.json" =
      .error ("Rule file not found: " ++ "missing.json") ∧
    apply_rule (fun _ => none) "missing.json" [("hemoglobin_state", "Low")] =
      .error ("Rule file not found: " ++ "missing.json") :=
  C7_resource_not_found (fun _ => none) "missing.json" _ rfl

/-! ### C6: `get_latest_abstracted_value` returns null exactly when no candidate -/

/-- C6: the extractor returns `None` exactly when there is no candidate row:
the collection is empty, no row carries the requested concept name, or the
snapshot instant lies outside every matching row's validity interval. -/
theorem C6_get_latest_none_iff (df : DataFrame) (concept_name : String)
    (snapshot_time : Nat) :
    get_latest_abstracted_value df concept_name snapshot_time = none ↔
      ∀ r ∈ df, ¬(r.conceptName = concept_name ∧ r.startDateTime ≤ snapshot_time
        ∧ snapshot_time ≤ r.endDateTime) := by
  have hfilter : get_latest_abstracted_value df concept_name snapshot_time = none ↔
      df.filter (matchesConcept concept_name snapshot_time) = [] := by
    unfold get_latest_abstracted_value
    by_cases hdf : df.isEmpty
    · rw [List.isEmpty_iff] at hdf
      subst hdf
      simp
    · simp only [hdf, if_neg, Bool.false_eq_true, not_false_iff]
      cases df.filter (matchesConcept concept_name snapshot_time) <;> simp
  rw [hfilter, List.filter_eq_nil_iff]
  constructor
  · intro h r hr
    have := h r hr
    rw [matchesConcept_eq_true_iff] at this
    exact this
  · intro h r hr
    rw [matchesConcept_eq_true_iff]
    exact h r hr

/-! ### Maximum-selection lemmas for `idxmaxRow` -/

lemma idxmaxRow_cons (r x : ObsRow) (xs : List ObsRow) :
    idxmaxRow r (x :: xs) =
      idxmaxRow (if r.startDateTime < x.startDateTime then x else r) xs := rfl

lemma idxmaxRow_le : ∀ (rs : List ObsRow) (r : ObsRow), ∀ x ∈ r :: rs,
    x.startDateTime ≤ (idxmaxRow r rs).startDateTime := by
  intro rs
  induction rs with
  | nil =>
      intro r x hx
      rw [List.mem_singleton] at hx
      subst hx
      exact le_refl _
  | cons y ys ih =>
      intro r x hx
      rw [idxmaxRow_cons]
      by_cases h : r.startDateTime < y.startDateTime
      · rw [if_pos h]
        rcases List.mem_cons.mp hx with hx1 | hx2
        · subst hx1
          exact le_trans (le_of_lt h) (ih y y (List.mem_cons_self _ _))
        · exact ih y x hx2
      · rw [if_neg h]
        rcases List.mem_cons.mp hx with hx1 | hx2
        · subst hx1
          exact ih x x (List.mem_cons_self _ _)
        · rcases List.mem_cons.mp hx2 with hy | hys
          · subst hy
            exact le_trans (Nat.le_of_not_lt h) (ih r r (List.mem_cons_self _ _))
          · exact ih r x (List.mem_cons_of_mem _ hys)

lemma idxmaxRow_first_max : ∀ (rs : List ObsRow) (r : ObsRow),
    ∃ l₁ l₂, r :: rs = l₁ ++ idxmaxRow r rs :: l₂ ∧
      (∀ x ∈ l₁, x.startDateTime < (idxmaxRow r rs).startDateTime) ∧
      (∀ x ∈ l₂, x.startDateTime ≤ (idxmaxRow r rs).startDateTime) := by
  intro rs
  induction rs with
  | nil =>
      intro r
      exact ⟨[], [], rfl, by simp, by simp⟩
  | cons y ys ih =>
      intro r
      rw [idxmaxRow_cons]
      by_cases h : r.startDateTime < y.startDateTime
      · rw [if_pos h]
        obtain ⟨l₁, l₂, heq, h₁, h₂⟩ := ih y
        refine ⟨r :: l₁, l₂, ?_, ?_, h₂⟩
        · rw [List.cons_append, ← heq]
        · intro x hx
          rcases List.mem_cons.mp hx with hx1 | hx2
          · subst hx1
            exact lt_of_lt_of_le h (idxmaxRow_le ys y y (List.mem_cons_self _ _))
          · exact h₁ x hx2
      · rw [if_neg h]
        obtain ⟨l₁, l₂, heq, h₁, h₂⟩ := ih r
        cases l₁ with
        | nil =>
            simp only [List.nil_append] at heq
            injection heq with hhead htail
            refine ⟨[], y :: ys, ?_, by simp, ?_⟩
            · rw [List.nil_append, ← hhead]
            · intro x hx
              rcases List.mem_cons.mp hx with hx1 | hx2
              · subst hx1
                rw [← hhead]
                exact Nat.le_of_not_lt h
              · exact h₂ x (htail ▸ hx2)
        | cons a t =>
            simp only [List.cons_append] at heq
            injection heq with hhead htail
            have hrlt : r.startDateTime < (idxmaxRow r ys).startDateTime := by
              have := h₁ a (List.mem_cons_self _ _)
              rwa [← hhead] at this
            refine ⟨r :: y :: t, l₂, ?_, ?_, h₂⟩
            · simp only [List.cons_append]
              exact congrArg (List.cons r) (congrArg (List.cons y) htail)
            · intro x hx
              rcases List.mem_cons.mp hx with hx1 | hx2
              · subst hx1
                exact hrlt
              · rcases List.mem_cons.mp hx2 with hy | ht
                · subst hy
                  exact lt_of_le_of_lt (Nat.le_of_not_lt h) hrlt
                · exact h₁ x (List.mem_cons_of_mem _ ht)

lemma idxmaxRow_mem (r : ObsRow) (rs : List ObsRow) : idxmaxRow r rs ∈ r :: rs := by
  obtain ⟨l₁, l₂, heq, -, -⟩ := idxmaxRow_first_max rs r
  rw [heq]
  exact List.mem_append.mpr (Or.inr (List.mem_cons_self _ _))

lemma get_latest_eq_idxmax (df : DataFrame) (concept_name : String)
    (snapshot_time : Nat) (r : ObsRow) (rs : List ObsRow)
    (hf : df.filter (matchesConcept concept_name snapshot_time) = r :: rs) :
    get_latest_abstracted_value df concept_name snapshot_time =
      some (idxmaxRow r rs).value := by
  have hdf : df.isEmpty = false := by
    cases df with
    | nil => simp at hf
    | cons a as => rfl
  unfold get_latest_abstracted_value
  rw [hdf, hf]
  simp

/-! ### C2: filter and maximum-start selection of the extractor -/

/-- C2: the extractor keeps exactly the rows with an exact concept-name match
whose inclusive validity interval contains the snapshot instant; among the
kept rows it returns the `Value` of one attaining the maximum `StartDateTime`;
over two overlapping intervals for the same concept it returns the value of
the one with the later `StartDateTime`. -/
theorem C2_extract_latest_max (df : DataFrame) (concept_name : String)
    (snapshot_time : Nat) :
    (df.filter (matchesConcept concept_name snapshot_time) =
      df.filter (fun r => decide (r.conceptName = concept_name ∧
        r.startDateTime ≤ snapshot_time ∧ snapshot_time ≤ r.endDateTime))) ∧
    (∀ r rs, df.filter (matchesConcept concept_name snapshot_time) = r :: rs →
      ∃ m ∈ r :: rs,
        get_latest_abstracted_value df concept_name snapshot_time = some m.value ∧
        ∀ x ∈ r :: rs, x.startDateTime ≤ m.startDateTime) ∧
    (∀ r1 r2 : ObsRow, df = [r1, r2] →
      r1.conceptName = concept_name → r2.conceptName = concept_name →
      r1.startDateTime ≤ snapshot_time → snapshot_time ≤ r1.endDateTime →
      r2.startDateTime ≤ snapshot_time → snapshot_time ≤ r2.endDateTime →
      r1.startDateTime < r2.startDateTime →
      get_latest_abstracted_value df concept_name snapshot_time = some r2.value) := by
  refine ⟨?_, ?_, ?_⟩
  · refine List.filter_congr (fun x _ => ?_)
    rw [Bool.eq_iff_iff, matchesConcept_eq_true_iff, decide_eq_true_eq]
  · intro r rs hf
    exact ⟨idxmaxRow r rs, idxmaxRow_mem r rs,
      get_latest_eq_idxmax df concept_name snapshot_time r rs hf,
      fun x hx => idxmaxRow_le rs r x hx⟩
  · intro r1 r2 hdf h1c h2c h1s h1e h2s h2e hlt
    subst hdf
    have hm1 : matchesConcept concept_name snapshot_time r1 = true :=
      (matchesConcept_eq_true_iff _ _ _).mpr ⟨h1c, h1s, h1e⟩
    have hm2 : matchesConcept concept_name snapshot_time r2 = true :=
      (matchesConcept_eq_true_iff _ _ _).mpr ⟨h2c, h2s, h2e⟩
    have hf : [r1, r2].filter (matchesConcept concept_name snapshot_time) = [r1, r2] := by
      simp [List.filter, hm1, hm2]
    have := get_latest_eq_idxmax [r1, r2] concept_name snapshot_time r1 [r2] hf
    rw [this]
    show some (if r1.startDateTime < r2.startDateTime then r2 else r1).value = some r2.value
    rw [if_pos hlt]

/-- C2 witness: two overlapping intervals for one concept; the extractor
returns the value of the later-starting one. -/
theorem C2_witness :
    get_latest_abstracted_value
      [⟨"Hemoglobin_Level", 2, 10, "old"⟩, ⟨"Hemoglobin_Level", 5, 12, "new"⟩]
      "Hemoglobin_Level" 7 = some "new" :=
  (C2_extract_latest_max _ "Hemoglobin_Level" 7).2.2 _ _ rfl rfl rfl
    (by decide) (by decide) (by decide) (by decide) (by decide)

/-! ### C9: ties on the maximum start time resolve to the first row -/

/-- C9: among the candidate rows, the extractor returns the value of the first
row in input (index) order attaining the maximum `StartDateTime`: every
earlier candidate has a strictly smaller `StartDateTime` and every later one a
smaller-or-equal `StartDateTime`, mirroring pandas `idxmax` returning the
first occurrence of the maximum. -/
theorem C9_first_occurrence_of_max (df : DataFrame) (concept_name : String)
    (snapshot_time : Nat) (r : ObsRow) (rs : List ObsRow)
    (hf : df.filter (matchesConcept concept_name snapshot_time) = r :: rs) :
    ∃ l₁ l₂ m, r :: rs = l₁ ++ m :: l₂ ∧
      get_latest_abstracted_value df concept_name snapshot_time = some m.value ∧
      (∀ x ∈ l₁, x.startDateTime < m.startDateTime) ∧
      (∀ x ∈ l₂, x.startDateTime ≤ m.startDateTime) := by
  obtain ⟨l₁, l₂, heq, h₁, h₂⟩ := idxmaxRow_first_max rs r
  exact ⟨l₁, l₂, idxmaxRow r rs, heq,
    get_latest_eq_idxmax df concept_name snapshot_time r rs hf, h₁, h₂⟩

/-- C9 witness: two candidates sharing the identical maximum start time; the
extractor returns the first one's value. -/
theorem C9_witness :
    get_latest_abstracted_value
      [⟨"WBC_Level", 5, 10, "A"⟩, ⟨"WBC_Level", 5, 10, "B"⟩] "WBC_Level" 7 =
      some "A" ∧
    (∃ l₁ l₂ m, [(⟨"WBC_Level", 5, 10, "A"⟩ : ObsRow), ⟨"WBC_Level", 5, 10, "B"⟩] =
        l₁ ++ m :: l₂ ∧
      get_latest_abstracted_value
        [⟨"WBC_Level", 5, 10, "A"⟩, ⟨"WBC_Level", 5, 10, "B"⟩] "WBC_Level" 7 =
        some m.value ∧
      (∀ x ∈ l₁, x.startDateTime < m.startDateTime) ∧
      (∀ x ∈ l₂, x.startDateTime ≤ m.startDateTime)) :=
  ⟨rfl, C9_first_occurrence_of_max _ "WBC_Level" 7 _ _ rfl⟩

/-! ### Reduction lemmas for the single-subject analyzer -/

lemma apply_rule_of_found (fs : FileSystem) (rule_path : String)
    (rd : RuleDefinition) (input_values : List (String × String))
    (hfs : fs rule_path = some rd) :
    apply_rule fs rule_path input_values =
      .ok (rd.rules.lookup (buildKey rd.input_parameters input_values)) := by
  unfold apply_rule load_rule
  rw [hfs]

lemma analyze_patient_of_empty (fs : FileSystem) (path : String) (med : Mediator)
    (pid : String) (snap : Nat) (hmed : med (pyStrip pid) snap = .ok []) :
    analyze_patient_hematological_state fs path med pid snap =
      .ok [("patient_id", .str (pyStrip pid)),
           ("snapshot_date", .time snap),
           ("hemoglobin_state", PyVal.none),
           ("wbc_level", PyVal.none),
           ("hematological_state", PyVal.none),
           ("error", .str "No abstracted data available for this patient")] := by
  unfold analyze_patient_hematological_state
  rw [hmed]
  rfl

lemma analyze_patient_of_cons (fs : FileSystem) (path : String) (med : Mediator)
    (pid : String) (snap : Nat) (r : ObsRow) (rs : List ObsRow) (v : Option String)
    (hmed : med (pyStrip pid) snap = .ok (r :: rs))
    (hghs : get_hematological_state fs path
        (get_latest_abstracted_value (r :: rs) "Hemoglobin_Level" snap)
        (get_latest_abstracted_value (r :: rs) "WBC_Level" snap) = .ok v) :
    analyze_patient_hematological_state fs path med pid snap =
      .ok [("patient_id", .str (pyStrip pid)),
           ("snapshot_date", .time snap),
           ("individual_states", .states
             [("hemoglobin_state",
               get_latest_abstracted_value (r :: rs) "Hemoglobin_Level" snap),
              ("wbc_level",
               get_latest_abstracted_value (r :: rs) "WBC_Level" snap)]),
           ("hematological_state", optVal v),
           ("abstracted_data", .df (r :: rs))] := by
  unfold analyze_patient_hematological_state
  rw [hmed]
  simp only [List.isEmpty_cons, Bool.false_eq_true, if_false]
  rw [hghs]

/-! ### C5: empty abstracted collection yields the flat no-data result -/

/-- C5: when the subject's abstracted collection for the snapshot is empty,
the analyzer returns (rather than raises) a result whose individual state
fields and compound `hematological_state` field are all null and whose
explicit no-data error marker is set. -/
theorem C5_no_data_result (fs : FileSystem) (path : String) (med : Mediator)
    (pid : String) (snap : Nat) (hmed : med (pyStrip pid) snap = .ok []) :
    ∃ d, analyze_patient_hematological_state fs path med pid snap = .ok d ∧
      d.lookup "hemoglobin_state" = some PyVal.none ∧
      d.lookup "wbc_level" = some PyVal.none ∧
      d.lookup "hematological_state" = some PyVal.none ∧
      d.lookup "error" =
        some (.str "No abstracted data available for this patient") :=
  ⟨_, analyze_patient_of_empty fs path med pid snap hmed, rfl, rfl, rfl, rfl⟩

/-- C5 witness: a concrete subject with zero abstracted observations. -/
theorem C5_witness :
    ∃ d, analyze_patient_hematological_state (fun _ => none) "hema.json"
        (fun _ _ => .ok []) "p1" 5 = .ok d ∧
      d.lookup "hemoglobin_state" = some PyVal.none ∧
      d.lookup "wbc_level" = some PyVal.none ∧
      d.lookup "hematological_state" = some PyVal.none ∧
      d.lookup "error" =
        some (.str "No abstracted data available for this patient") :=
  C5_no_data_result (fun _ => none) "hema.json" (fun _ _ => .ok []) "p1" 5 rfl

/-! ### C4: a missing individual value forces a null compound outcome -/

/-- C4: with a non-empty abstracted collection, if either extracted individual
value (hemoglobin state or WBC level) is null, the returned result carries a
null compound `hematological_state`, and the analysis is independent of the
rule file system — the rule lookup is never performed on an incomplete input
set. -/
theorem C4_missing_value_null_compound (fs : FileSystem) (path : String)
    (med : Mediator) (pid : String) (snap : Nat) (df : DataFrame)
    (hmed : med (pyStrip pid) snap = .ok df) (hne : df ≠ [])
    (hmiss : get_latest_abstracted_value df "Hemoglobin_Level" snap = none ∨
             get_latest_abstracted_value df "WBC_Level" snap = none) :
    (∃ d, analyze_patient_hematological_state fs path med pid snap = .ok d ∧
       d.lookup "hematological_state" = some PyVal.none) ∧
    (∀ gs : FileSystem, analyze_patient_hematological_state gs path med pid snap =
       analyze_patient_hematological_state fs path med pid snap) := by
  obtain ⟨r, rs, rfl⟩ : ∃ r rs, df = r :: rs := by
    cases df with
    | nil => exact absurd rfl hne
    | cons a as => exact ⟨a, as, rfl⟩
  have hghs : ∀ gs : FileSystem, get_hematological_state gs path
      (get_latest_abstracted_value (r :: rs) "Hemoglobin_Level" snap)
      (get_latest_abstracted_value (r :: rs) "WBC_Level" snap) = .ok none := by
    intro gs
    rcases hmiss with hm | hm
    · rw [hm]
      unfold get_hematological_state
      simp [falsyStr]
    · rw [hm]
      unfold get_hematological_state
      simp [falsyStr]
  refine ⟨⟨_, analyze_patient_of_cons fs path med pid snap r rs none hmed (hghs fs),
    rfl⟩, ?_⟩
  intro gs
  rw [analyze_patient_of_cons gs path med pid snap r rs none hmed (hghs gs),
      analyze_patient_of_cons fs path med pid snap r rs none hmed (hghs fs)]

/-- C4 witness: only a hemoglobin observation is present, so the WBC value is
null and the compound outcome is null regardless of the rule file system. -/
theorem C4_witness :
    (∃ d, analyze_patient_hematological_state (fun _ => none) "hema.json"
        (fun _ _ => .ok [⟨"Hemoglobin_Level", 0, 10, "High"⟩]) "p1" 5 = .ok d ∧
       d.lookup "hematological_state" = some PyVal.none) ∧
    (∀ gs : FileSystem, analyze_patient_hematological_state gs "hema.json"
        (fun _ _ => .ok [⟨"Hemoglobin_Level", 0, 10, "High"⟩]) "p1" 5 =
      analyze_patient_hematological_state (fun _ => none) "hema.json"
        (fun _ _ => .ok [⟨"Hemoglobin_Level", 0, 10, "High"⟩]) "p1" 5) :=
  C4_missing_value_null_compound (fun _ => none) "hema.json"
    (fun _ _ => .ok [⟨"Hemoglobin_Level", 0, 10, "High"⟩]) "p1" 5
    [⟨"Hemoglobin_Level", 0, 10, "High"⟩] rfl (by decide) (Or.inr rfl)

/-! ### C10: falsy inputs short-circuit the 2:1 AND rule -/

/-- C10: `get_hematological_state` returns null whenever either input is falsy
— null or the empty string — for every rule file system alike, so the rule
table is never consulted; and whenever a rule-table entry is matched through
it, both key components are non-empty strings, so no entry whose key encodes
an empty-string hemoglobin or WBC field can ever be matched. -/
theorem C10_falsy_short_circuit (fs : FileSystem) (path : String)
    (hb wbc : Option String) :
    ((hb = none ∨ hb = some "" ∨ wbc = none ∨ wbc = some "") →
      get_hematological_state fs path hb wbc = .ok none) ∧
    (∀ rd v, fs path = some rd →
      rd.input_parameters = ["hemoglobin_state", "wbc_level"] →
      get_hematological_state fs path hb wbc = .ok (some v) →
      ∃ s t, hb = some s ∧ wbc = some t ∧ s ≠ "" ∧ t ≠ "" ∧
        rd.rules.lookup (s ++ "," ++ t) = some v) := by
  constructor
  · intro h
    unfold get_hematological_state
    have hcond : (falsyStr hb || falsyStr wbc) = true := by
      rcases h with h | h | h | h <;> subst h <;> simp [falsyStr]
    rw [if_pos hcond]
  · intro rd v hfs hparams hv
    unfold get_hematological_state at hv
    by_cases hcond : (falsyStr hb || falsyStr wbc) = true
    · rw [if_pos hcond] at hv
      exact absurd (Except.ok.inj hv) (by simp)
    · rw [if_neg hcond] at hv
      rw [Bool.or_eq_true, not_or] at hcond
      obtain ⟨hf1, hf2⟩ := hcond
      obtain ⟨s, rfl⟩ : ∃ s, hb = some s := by
        cases hb with
        | none => exact absurd rfl hf1
        | some s => exact ⟨s, rfl⟩
      obtain ⟨t, rfl⟩ : ∃ t, wbc = some t := by
        cases wbc with
        | none => exact absurd rfl hf2
        | some t => exact ⟨t, rfl⟩
      have hs : s ≠ "" := by
        intro h
        subst h
        exact hf1 rfl
      have ht : t ≠ "" := by
        intro h
        subst h
        exact hf2 rfl
      rw [apply_rule_of_found fs path rd _ hfs, hparams] at hv
      exact ⟨s, t, rfl, rfl, hs, ht, Except.ok.inj hv⟩

/-- C10 witness: an empty-string hemoglobin state short-circuits to null, and
a successful match carries two non-empty key components. -/
theorem C10_witness :
    get_hematological_state
      (fun p => if p = "hema.json" then
        some ⟨["hemoglobin_state", "wbc_level"],
              [("Severe Anemia,Low", "Critical Hematological State")]⟩ else none)
      "hema.json" (some "") (some "Low") = .ok none ∧
    (∃ s t, (some "Severe Anemia" : Option String) = some s ∧
      (some "Low" : Option String) = some t ∧ s ≠ "" ∧ t ≠ "" ∧
      List.lookup (s ++ "," ++ t)
        [("Severe Anemia,Low", "Critical Hematological State")] =
        some "Critical Hematological State") :=
  ⟨(C10_falsy_short_circuit
      (fun p => if p = "hema.json" then
        some ⟨["hemoglobin_state", "wbc_level"],
              [("Severe Anemia,Low", "Critical Hematological State")]⟩ else none)
      "hema.json" (some "") (some "Low")).1 (Or.inr (Or.inl rfl)),
   (C10_falsy_short_circuit
      (fun p => if p = "hema.json" then
        some ⟨["hemoglobin_state", "wbc_level"],
              [("Severe Anemia,Low", "Critical Hematological State")]⟩ else none)
      "hema.json" (some "Severe Anemia") (some "Low")).2
      ⟨["hemoglobin_state", "wbc_level"],
       [("Severe Anemia,Low", "Critical Hematological State")]⟩
      "Critical Hematological State" rfl rfl rfl⟩

/-! ### C3: population scan isolates per-subject failures and keeps order -/

/-- C3: the population scan returns one entry per roster row in roster order;
a subject whose analysis raises contributes an error record with the subject
id, display attributes and error message, the scan continues, and a subject
whose analysis succeeds contributes its result enhanced with the display
attributes. -/
theorem C3_population_fault_isolation (fs : FileSystem) (path : String)
    (med : Mediator) (roster : List RosterRow) (snap : Nat) :
    (analyze_all_patients_hematological_state fs path med roster snap).length =
      roster.length ∧
    (∀ i : Nat, ∀ row : RosterRow, roster[i]? = some row →
      (∀ e, analyze_patient_hematological_state fs path med row.patient_id snap =
          .error e →
        (analyze_all_patients_hematological_state fs path med roster snap)[i]? =
          some [("patient_id", .str row.patient_id),
                ("first_name", .str row.first_name),
                ("last_name", .str row.last_name),
                ("error", .str e)]) ∧
      (∀ a, analyze_patient_hematological_state fs path med row.patient_id snap =
          .ok a →
        (analyze_all_patients_hematological_state fs path med roster snap)[i]? =
          some (a ++ [("first_name", .str row.first_name),
                      ("last_name", .str row.last_name)]))) := by
  refine ⟨List.length_map _ _, ?_⟩
  intro i row hrow
  have hmap : (analyze_all_patients_hematological_state fs path med roster snap)[i]? =
      some (match analyze_patient_hematological_state fs path med row.patient_id snap with
        | .ok analysis =>
            analysis ++ [("first_name", .str row.first_name),
                         ("last_name", .str row.last_name)]
        | .error e =>
            [("patient_id", .str row.patient_id),
             ("first_name", .str row.first_name),
             ("last_name", .str row.last_name),
             ("error", .str e)]) := by
    unfold analyze_all_patients_hematological_state
    rw [List.getElem?_map, hrow, Option.map_some']
  constructor
  · intro e he
    rw [hmap, he]
  · intro a ha
    rw [hmap, ha]

/-- C3 witness: the spec's example — a roster of 3 subjects where subject 2's
analysis raises; 3 entries come back in roster order, the middle one an error
record. -/
theorem C3_witness :
    (analyze_all_patients_hematological_state (fun _ => none) "hema.json"
      (fun pid _ => if pid = "2" then .error "boom" else .ok [])
      [⟨"1", "Alice", "Smith", "F"⟩, ⟨"2", "Bob", "Stone", "M"⟩,
       ⟨"3", "Cara", "Lund", "F"⟩] 5).length = 3 ∧
    (analyze_all_patients_hematological_state (fun _ => none) "hema.json"
      (fun pid _ => if pid = "2" then .error "boom" else .ok [])
      [⟨"1", "Alice", "Smith", "F"⟩, ⟨"2", "Bob", "Stone", "M"⟩,
       ⟨"3", "Cara", "Lund", "F"⟩] 5)[0]? =
      some [("patient_id", .str "1"), ("snapshot_date", .time 5),
            ("hemoglobin_state", PyVal.none), ("wbc_level", PyVal.none),
            ("hematological_state", PyVal.none),
            ("error", .str "No abstracted data available for this patient"),
            ("first_name", .str "Alice"), ("last_name", .str "Smith")] ∧
    (analyze_all_patients_hematological_state (fun _ => none) "hema.json"
      (fun pid _ => if pid = "2" then .error "boom" else .ok [])
      [⟨"1", "Alice", "Smith", "F"⟩, ⟨"2", "Bob", "Stone", "M"⟩,
       ⟨"3", "Cara", "Lund", "F"⟩] 5)[1]? =
      some [("patient_id", .str "2"), ("first_name", .str "Bob"),
            ("last_name", .str "Stone"), ("error", .str "boom")] ∧
    (analyze_all_patients_hematological_state (fun _ => none) "hema.json"
      (fun pid _ => if pid = "2" then .error "boom" else .ok [])
      [⟨"1", "Alice", "Smith", "F"⟩, ⟨"2", "Bob", "Stone", "M"⟩,
       ⟨"3", "Cara", "Lund", "F"⟩] 5)[2]? =
      some [("patient_id", .str "3"), ("snapshot_date", .time 5),
            ("hemoglobin_state", PyVal.none), ("wbc_level", PyVal.none),
            ("hematological_state", PyVal.none),
            ("error", .str "No abstracted data available for this patient"),
            ("first_name", .str "Cara"), ("last_name", .str "Lund")] :=
  ⟨(C3_population_fault_isolation (fun _ => none) "hema.json"
      (fun pid _ => if pid = "2" then .error "boom" else .ok [])
      [⟨"1", "Alice", "Smith", "F"⟩, ⟨"2", "Bob", "Stone", "M"⟩,
       ⟨"3", "Cara", "Lund", "F"⟩] 5).1,
   ((C3_population_fault_isolation (fun _ => none) "hema.json"
      (fun pid _ => if pid = "2" then .error "boom" else .ok [])
      [⟨"1", "Alice", "Smith", "F"⟩, ⟨"2", "Bob", "Stone", "M"⟩,
       ⟨"3", "Cara", "Lund", "F"⟩] 5).2 0 ⟨"1", "Alice", "Smith", "F"⟩ rfl).2 _ rfl,
   ((C3_population_fault_isolation (fun _ => none) "hema.json"
      (fun pid _ => if pid = "2" then .error "boom" else .ok [])
      [⟨"1", "Alice", "Smith", "F"⟩, ⟨"2", "Bob", "Stone", "M"⟩,
       ⟨"3", "Cara", "Lund", "F"⟩] 5).2 1 ⟨"2", "Bob", "Stone", "M"⟩ rfl).1 "boom" rfl,
   ((C3_population_fault_isolation (fun _ => none) "hema.json"
      (fun pid _ => if pid = "2" then .error "boom" else .ok [])
      [⟨"1", "Alice", "Smith", "F"⟩, ⟨"2", "Bob", "Stone", "M"⟩,
       ⟨"3", "Cara", "Lund", "F"⟩] 5).2 2 ⟨"3", "Cara", "Lund", "F"⟩ rfl).2 _ rfl⟩

/-! ### C8: the no-data result and the normal result have different shapes -/

/-- C8 counterexample: one subject with no abstracted data and one with data
produce results whose field-name sequences differ — the flat no-data record
has `hemoglobin_state`, `wbc_level` and `error` at top level, while the
normal record nests them under `individual_states` and adds
`abstracted_data`. -/
theorem C8_counterexample :
    ((analyze_patient_hematological_state (fun _ => none) "hema.json"
        (fun pid _ => if pid = "a" then .ok []
          else .ok [⟨"Hemoglobin_Level", 0, 10, "High"⟩])
        "a" 5).toOption.getD []).map Prod.fst ≠
    ((analyze_patient_hematological_state (fun _ => none) "hema.json"
        (fun pid _ => if pid = "a" then .ok []
          else .ok [⟨"Hemoglobin_Level", 0, 10, "High"⟩])
        "b" 5).toOption.getD []).map Prod.fst := by
  decide

/-- C8 (amended): every successful result has one of exactly two field
layouts — the flat no-data layout `patient_id, snapshot_date,
hemoglobin_state, wbc_level, hematological_state, error` when the abstracted
collection is empty, and the nested normal layout `patient_id, snapshot_date,
individual_states, hematological_state, abstracted_data` otherwise. -/
theorem C8_result_field_shapes (fs : FileSystem) (path : String)
    (med : Mediator) (pid : String) (snap : Nat) (d : PyDict)
    (h : analyze_patient_hematological_state fs path med pid snap = .ok d) :
    (med (pyStrip pid) snap = .ok [] →
      d.map Prod.fst = ["patient_id", "snapshot_date", "hemoglobin_state",
        "wbc_level", "hematological_state", "error"]) ∧
    (∀ r rs, med (pyStrip pid) snap = .ok (r :: rs) →
      d.map Prod.fst = ["patient_id", "snapshot_date", "individual_states",
        "hematological_state", "abstracted_data"]) := by
  constructor
  · intro hmed
    rw [analyze_patient_of_empty fs path med pid snap hmed] at h
    injection h with h
    subst h
    rfl
  · intro r rs hmed
    unfold analyze_patient_hematological_state at h
    rw [hmed] at h
    simp only [List.isEmpty_cons, Bool.false_eq_true, if_false] at h
    cases hg : get_hematological_state fs path
        (get_latest_abstracted_value (r :: rs) "Hemoglobin_Level" snap)
        (get_latest_abstracted_value (r :: rs) "WBC_Level" snap) with
    | error e =>
        rw [hg] at h
        exact Except.noConfusion h
    | ok v =>
        rw [hg] at h
        injection h with h
        subst h
        rfl

/-- C8 witness: the flat no-data layout at a concrete subject. -/
theorem C8_witness :
    ([("patient_id", PyVal.str "a"), ("snapshot_date", PyVal.time 5),
      ("hemoglobin_state", PyVal.none), ("wbc_level", PyVal.none),
      ("hematological_state", PyVal.none),
      ("error", PyVal.str "No abstracted data available for this patient")] :
        PyDict).map Prod.fst =
      ["patient_id", "snapshot_date", "hemoglobin_state", "wbc_level",
       "hematological_state", "error"] :=
  (C8_result_field_shapes (fun _ => none) "hema.json" (fun _ _ => .ok [])
    "a" 5 _ rfl).1 rfl
